import Mathlib

/-!
Verification of the Environment Cache Manager of FeatBench
(`src/docker_agent/container/cache_manager.py`) against its specification.

The Python class `CacheManager` is shallowly embedded: the docker daemon is a
state (`DockerState`) mapping container names to status strings and image keys
to image ids; every daemon interaction is recorded in a trace of `DockerCall`s;
transient failures of individual daemon operations (transport errors, a failing
start, a failing remove, a failing commit) are injected through a `Faults`
record, since in the source they arise nondeterministically from the daemon.

Each method of the class becomes a Lean function from the manager, the daemon
state and the fault record to a result, the successor state and the call trace.
Python exceptions are modelled with `Except PyError`; a method that catches an
exception (the generic `except Exception` handlers of the source) returns its
normal result type instead.

Repository names are assumed ASCII, so Python's `str.lower` coincides with a
character-wise `Char.toLower`.
-/

namespace FeatBench

/-- Python `s.replace("/", "_")`: the argument is a single character, so the
substring replacement is a character map. -/
def pyReplaceSlash (s : String) : String :=
  String.mk (s.data.map fun c => if c = '/' then '_' else c)

/-- Python `s.lower()` restricted to ASCII strings. -/
def pyLower (s : String) : String :=
  String.mk (s.data.map Char.toLower)

/-- Python exception values relevant to the cache manager:
`docker.errors.APIError` (and other transport errors), the project's own
`CacheError`, and a build failure from the external image builder. -/
inductive PyError where
  | apiError (msg : String)
  | cacheError (msg : String)
  | buildError (msg : String)
deriving DecidableEq, Repr

deriving instance DecidableEq for Except

/-- Python `str(e)` on the exceptions above: the message. -/
def pyStr : PyError → String
  | .apiError m => m
  | .cacheError m => m
  | .buildError m => m

/-- The docker daemon's state as seen by the cache manager: which container
exists under which name and with which status string, and which image id (if
any) is stored under each `repository:tag` key.  `nextImageId` supplies the id
the daemon will assign to the next committed image. -/
structure DockerState where
  containers : String → Option String
  images : String → Option Nat
  nextImageId : Nat

/-- One daemon interaction, recorded in the trace of each operation. -/
inductive DockerCall where
  | getContainer (name : String)
  | startContainer (name : String)
  | removeContainer (name : String)
  | getImage (key : String)
  | runContainer (image : String) (name : String)
  | commitContainer (repoTag : String)
  | buildImage (name : String)
deriving DecidableEq, Repr

/-- Fault injection: which daemon operations fail during one protocol run.
`commitFails = some e` means `container.commit` raises the exception `e`. -/
structure Faults where
  getContainerTransport : Bool
  startFails : Bool
  removeFails : Bool
  getImageTransport : Bool
  commitFails : Option PyError
  runFails : Bool
  buildFails : Bool
deriving DecidableEq, Repr

/-- The fault-free daemon. -/
def noFaults : Faults :=
  { getContainerTransport := false
    startFails := false
    removeFails := false
    getImageTransport := false
    commitFails := none
    runFails := false
    buildFails := false }

/-- The construction-time fields of `CacheManager.__init__`:
`self.repo = repo.replace("/", "_")`, `self.repo_id = repo_id`,
`self.repo_lower = self.repo.lower()`. -/
structure CacheManager where
  repo : String
  repo_id : String
  repo_lower : String
deriving DecidableEq, Repr

/-- `CacheManager.__init__(repo, repo_id)` (the daemon client and image
builder are external handles carried separately here). -/
def CacheManager.init (repo repo_id : String) : CacheManager :=
  let r := pyReplaceSlash repo
  { repo := r, repo_id := repo_id, repo_lower := pyLower r }

/-- The fields of `common_container_config` that are fixed by the source text.
The `environment`, `volumes`, `device_requests` and POSIX `user` entries are
opaque host-dependent constants and are not modelled. -/
structure ContainerConfig where
  name : String
  command : String
  detach : Bool
  tty : Bool
  runtime : String
  network_mode : String
deriving DecidableEq, Repr

/-- `CacheManager.common_container_config`. -/
def common_container_config (m : CacheManager) : ContainerConfig :=
  { name := m.repo
    command := "/bin/bash"
    detach := true
    tty := true
    runtime := "nvidia"
    network_mode := "host" }

/-- `CacheManager.check_cached_container`.  The whole body sits inside a
`try` whose handlers catch `docker.errors.NotFound` and any other `Exception`
and return `None`; hence a transport error on the lookup, a failing
`container.start()` and a failing `container.remove(force=True)` all yield
`None` with the daemon state left as the failed operation left it. -/
def check_cached_container (m : CacheManager) (st : DockerState) (f : Faults) :
    Option String × DockerState × List DockerCall :=
  if f.getContainerTransport then
    (none, st, [.getContainer m.repo])
  else
    match st.containers m.repo with
    | none => (none, st, [.getContainer m.repo])
    | some status =>
      if status = "running" then
        (some m.repo, st, [.getContainer m.repo])
      else if status = "exited" then
        if f.startFails then
          (none, st, [.getContainer m.repo, .startContainer m.repo])
        else
          (some m.repo,
           { st with containers := fun n => if n = m.repo then some "running" else st.containers n },
           [.getContainer m.repo, .startContainer m.repo])
      else
        if f.removeFails then
          (none, st, [.getContainer m.repo, .removeContainer m.repo])
        else
          (none,
           { st with containers := fun n => if n = m.repo then none else st.containers n },
           [.getContainer m.repo, .removeContainer m.repo])

/-- `CacheManager.save_container_as_image`: commits the container under
`featbench_{repo_lower}:{repo_id}`.  The daemon's commit assigns a fresh image
id and points the `repository:tag` key at it (re-pointing it if the key was
already taken).  Any exception is wrapped in
`CacheError(f"Failed to save container image: {str(e)}")`. -/
def save_container_as_image (m : CacheManager) (st : DockerState) (f : Faults)
    (_container : String) : Except PyError Nat × DockerState × List DockerCall :=
  let image_name := "featbench_" ++ m.repo_lower
  let key := image_name ++ ":" ++ m.repo_id
  match f.commitFails with
  | some e =>
      (.error (.cacheError ("Failed to save container image: " ++ pyStr e)), st,
       [.commitContainer key])
  | none =>
      (.ok st.nextImageId,
       { st with
           images := fun k => if k = key then some st.nextImageId else st.images k
           nextImageId := st.nextImageId + 1 },
       [.commitContainer key])

/-- `CacheManager.check_cached_image`: looks up
`featbench_{repo_lower}:{repo_id}`; `ImageNotFound` and every other exception
(in particular a transport error) are caught and yield `False`. -/
def check_cached_image (m : CacheManager) (st : DockerState) (f : Faults) :
    Bool × List DockerCall :=
  let image_name := "featbench_" ++ m.repo_lower ++ ":" ++ m.repo_id
  if f.getImageTransport then
    (false, [.getImage image_name])
  else
    ((st.images image_name).isSome, [.getImage image_name])

/-- `CacheManager.create_container_from_cached_image`: runs a container from
`featbench_{repo_lower}:{repo_id}` with `common_container_config` (hence named
`repo`, detached, started).  The source has no exception handler here: a
transport error, or the daemon's name-uniqueness rejection when a container
with that name already exists, propagates to the caller. -/
def create_container_from_cached_image (m : CacheManager) (st : DockerState)
    (f : Faults) : Except PyError String × DockerState × List DockerCall :=
  let image_name := "featbench_" ++ m.repo_lower ++ ":" ++ m.repo_id
  let cfg := common_container_config m
  if f.runFails then
    (.error (.apiError "run failed"), st, [.runContainer image_name cfg.name])
  else if (st.containers cfg.name).isSome then
    (.error (.apiError "conflict: container name already in use"), st,
     [.runContainer image_name cfg.name])
  else
    (.ok cfg.name,
     { st with containers := fun n => if n = cfg.name then some "running" else st.containers n },
     [.runContainer image_name cfg.name])

/-- `CacheManager.create_new_container`: invokes the external Build Trigger
(`image_builder.build_image`, out of scope, producing `builtImage` or a build
failure) and runs a container from the result with `common_container_config`.
No exception handler: build and run errors propagate. -/
def create_new_container (m : CacheManager) (st : DockerState) (f : Faults)
    (builtImage : String) : Except PyError String × DockerState × List DockerCall :=
  let cfg := common_container_config m
  if f.buildFails then
    (.error (.buildError "build failed"), st, [.buildImage m.repo])
  else if f.runFails then
    (.error (.apiError "run failed"), st, [.buildImage m.repo, .runContainer builtImage cfg.name])
  else if (st.containers cfg.name).isSome then
    (.error (.apiError "conflict: container name already in use"), st,
     [.buildImage m.repo, .runContainer builtImage cfg.name])
  else
    (.ok cfg.name,
     { st with containers := fun n => if n = cfg.name then some "running" else st.containers n },
     [.buildImage m.repo, .runContainer builtImage cfg.name])

/-- Modelled from the spec: the `acquireEnvironment` orchestration of §4.3 is
not part of `src/` (only the `CacheManager` methods it drives are); per the
spec, the first matching branch wins: reuse or restart a cached container,
else instantiate the cached image if present, else invoke the Build Trigger
and run the freshly built image. -/
def acquireEnvironment (m : CacheManager) (st : DockerState) (f : Faults)
    (builtImage : String) : Except PyError String × DockerState × List DockerCall :=
  match check_cached_container m st f with
  | (some h, st1, t1) => (.ok h, st1, t1)
  | (none, st1, t1) =>
    match check_cached_image m st1 f with
    | (true, t2) =>
      match create_container_from_cached_image m st1 f with
      | (r, st2, t3) => (r, st2, t1 ++ t2 ++ t3)
    | (false, t2) =>
      match create_new_container m st1 f builtImage with
      | (r, st2, t3) => (r, st2, t1 ++ t2 ++ t3)

/-- Trace predicate: is this call a container start? -/
def isStartCall : DockerCall → Bool
  | .startContainer _ => true
  | _ => false

/-- Trace predicate: is this call a container removal? -/
def isRemoveCall : DockerCall → Bool
  | .removeContainer _ => true
  | _ => false

/-- Trace predicate: is this call a Build Trigger invocation? -/
def isBuildCall : DockerCall → Bool
  | .buildImage _ => true
  | _ => false

/-- Trace predicate: is this call a commit? -/
def isCommitCall : DockerCall → Bool
  | .commitContainer _ => true
  | _ => false

/-- Character-list membership of `pat` as a leading segment. -/
def startsWithChars : List Char → List Char → Bool
  | [], _ => true
  | _ :: _, [] => false
  | a :: as, b :: bs => a = b && startsWithChars as bs

/-- Character-list substring occurrence of `pat`. -/
def hasSubChars (pat : List Char) : List Char → Bool
  | [] => startsWithChars pat []
  | c :: rest => startsWithChars pat (c :: rest) || hasSubChars pat rest

/-- Does `s` contain `pat` as a substring? -/
def strHasSub (s pat : String) : Bool :=
  hasSubChars pat.data s.data

/-! Concrete fixtures used by witnesses and counterexamples. -/

/-- The manager of the spec's worked scenario: repository `octocat/demo`,
task id `42`. -/
def mEx : CacheManager := CacheManager.init "octocat/demo" "42"

/-- A daemon with no containers and no images. -/
def stEmpty : DockerState := ⟨fun _ => none, fun _ => none, 0⟩

/-- A daemon holding a running container named `octocat_demo`. -/
def stRun : DockerState :=
  ⟨fun n => if n = "octocat_demo" then some "running" else none, fun _ => none, 0⟩

/-- A daemon holding an exited container named `octocat_demo`. -/
def stExited : DockerState :=
  ⟨fun n => if n = "octocat_demo" then some "exited" else none, fun _ => none, 0⟩

/-- A daemon holding a container named `octocat_demo` in the abnormal status
`dead`. -/
def stAbnormal : DockerState :=
  ⟨fun n => if n = "octocat_demo" then some "dead" else none, fun _ => none, 0⟩

/-- A daemon holding both the running container and the cached image of the
worked scenario (image id 7; the next commit would yield id 8). -/
def stBoth : DockerState :=
  ⟨fun n => if n = "octocat_demo" then some "running" else none,
   fun k => if k = "featbench_octocat_demo:42" then some 7 else none, 8⟩

/-- Like `stBoth` but the daemon's next image id is 99, to make the overwrite
of the pre-existing image id 7 visible. -/
def stPre : DockerState :=
  ⟨fun n => if n = "octocat_demo" then some "running" else none,
   fun k => if k = "featbench_octocat_demo:42" then some 7 else none, 99⟩

/-- The daemon state a successful checkpoint leaves behind when applied to
`stRun`: the image key of the worked scenario now holds the fresh image id. -/
def stAfterSave : DockerState :=
  { stRun with
      images := fun k =>
        if k = "featbench_" ++ mEx.repo_lower ++ ":" ++ mEx.repo_id then some stRun.nextImageId
        else stRun.images k
      nextImageId := stRun.nextImageId + 1 }

/-- Faults: `container.start()` raises. -/
def fStartFail : Faults := { noFaults with startFails := true }

/-- Faults: `container.remove(force=True)` raises. -/
def fRemoveFail : Faults := { noFaults with removeFails := true }

/-- Faults: both lookups hit a daemon transport error. -/
def fTransport : Faults :=
  { noFaults with getContainerTransport := true, getImageTransport := true }

/-- Faults: `container.commit` raises `APIError("Read timed out")`. -/
def fCommitFail : Faults :=
  { noFaults with commitFails := some (.apiError "Read timed out") }

/-! Helper lemmas shared between the claims. -/

/-- When `check_cached_container` hands back a container, it is the one named
`repo` and it is running in the daemon state the method leaves behind. -/
theorem check_cached_container_some (m : CacheManager) (st : DockerState)
    (f : Faults) (r : String) (st1 : DockerState) (t1 : List DockerCall)
    (h : check_cached_container m st f = (some r, st1, t1)) :
    r = m.repo ∧ st1.containers m.repo = some "running" := by
  unfold check_cached_container at h
  split at h
  · simp at h
  · split at h
    · simp at h
    · split at h
      · rename_i status hst heq
        simp only [Prod.mk.injEq, Option.some.injEq] at h
        exact ⟨h.1.symm, by rw [← h.2.1]; rw [heq] at hst; simpa using hst⟩
      · split at h
        · split at h
          · simp at h
          · simp only [Prod.mk.injEq, Option.some.injEq] at h
            refine ⟨h.1.symm, ?_⟩
            rw [← h.2.1]
            simp
        · split at h <;> simp at h

/-- The trace of `check_cached_container` on a found exited container is the
lookup followed by exactly one start, whether or not the start succeeds. -/
theorem check_cached_container_exited_trace (m : CacheManager)
    (st : DockerState) (f : Faults)
    (hT : f.getContainerTransport = false)
    (hs : st.containers m.repo = some "exited") :
    (check_cached_container m st f).2.2
      = [.getContainer m.repo, .startContainer m.repo] := by
  unfold check_cached_container
  rw [hT, hs]
  cases hf : f.startFails <;> simp

/-- The trace of `check_cached_image` is a single image lookup. -/
theorem check_cached_image_trace (m : CacheManager) (st : DockerState)
    (f : Faults) :
    (check_cached_image m st f).2
      = [.getImage ("featbench_" ++ m.repo_lower ++ ":" ++ m.repo_id)] := by
  unfold check_cached_image
  split <;> rfl

/-- When `create_container_from_cached_image` succeeds, the new container is
named `repo` and is running afterwards. -/
theorem create_from_cached_ok (m : CacheManager) (st : DockerState)
    (f : Faults) (r : String) (st2 : DockerState) (t : List DockerCall)
    (h : create_container_from_cached_image m st f = (.ok r, st2, t)) :
    r = m.repo ∧ st2.containers m.repo = some "running" := by
  unfold create_container_from_cached_image at h
  dsimp only at h
  split at h
  · simp at h
  · split at h
    · simp at h
    · simp only [Prod.mk.injEq, Except.ok.injEq] at h
      refine ⟨h.1.symm, ?_⟩
      rw [← h.2.1]
      simp [common_container_config]

/-- The trace of `create_container_from_cached_image` is a single run call. -/
theorem create_from_cached_trace (m : CacheManager) (st : DockerState)
    (f : Faults) :
    (create_container_from_cached_image m st f).2.2
      = [.runContainer ("featbench_" ++ m.repo_lower ++ ":" ++ m.repo_id) m.repo] := by
  unfold create_container_from_cached_image
  dsimp only
  split
  · rfl
  · split <;> rfl

/-- When `create_new_container` succeeds, the new container is named `repo`
and is running afterwards. -/
theorem create_new_ok (m : CacheManager) (st : DockerState) (f : Faults)
    (img : String) (r : String) (st2 : DockerState) (t : List DockerCall)
    (h : create_new_container m st f img = (.ok r, st2, t)) :
    r = m.repo ∧ st2.containers m.repo = some "running" := by
  unfold create_new_container at h
  dsimp only at h
  split at h
  · simp at h
  · split at h
    · simp at h
    · split at h
      · simp at h
      · simp only [Prod.mk.injEq, Except.ok.injEq] at h
        refine ⟨h.1.symm, ?_⟩
        rw [← h.2.1]
        simp [common_container_config]

/-- `create_new_container` issues no start call. -/
theorem create_new_no_start (m : CacheManager) (st : DockerState) (f : Faults)
    (img : String) :
    ((create_new_container m st f img).2.2).countP isStartCall = 0 := by
  unfold create_new_container
  dsimp only
  split
  · rfl
  · split
    · rfl
    · split <;> rfl

/-! Characterization lemmas: the exact result of each method in each branch. -/

/-- A transport error on the container lookup is swallowed: result `None`,
state untouched. -/
theorem check_transport_eq (m : CacheManager) (st : DockerState) (f : Faults)
    (hT : f.getContainerTransport = true) :
    check_cached_container m st f = (none, st, [.getContainer m.repo]) := by
  unfold check_cached_container
  rw [hT]
  rfl

/-- No container of that name: result `None`, state untouched. -/
theorem check_notfound_eq (m : CacheManager) (st : DockerState) (f : Faults)
    (hT : f.getContainerTransport = false)
    (hs : st.containers m.repo = none) :
    check_cached_container m st f = (none, st, [.getContainer m.repo]) := by
  unfold check_cached_container
  rw [hT, hs]
  rfl

/-- A running container is returned as-is. -/
theorem check_running_eq (m : CacheManager) (st : DockerState) (f : Faults)
    (hT : f.getContainerTransport = false)
    (hs : st.containers m.repo = some "running") :
    check_cached_container m st f = (some m.repo, st, [.getContainer m.repo]) := by
  unfold check_cached_container
  rw [hT, hs]
  simp

/-- An exited container whose start succeeds is returned, now running. -/
theorem check_exited_ok_eq (m : CacheManager) (st : DockerState) (f : Faults)
    (hT : f.getContainerTransport = false)
    (hs : st.containers m.repo = some "exited")
    (hst : f.startFails = false) :
    check_cached_container m st f =
      (some m.repo,
       { st with containers := fun n => if n = m.repo then some "running" else st.containers n },
       [.getContainer m.repo, .startContainer m.repo]) := by
  unfold check_cached_container
  rw [hT, hs, hst]
  simp

/-- An exited container whose start raises: the exception is swallowed,
result `None`, the exited container left in place, no removal issued. -/
theorem check_exited_fail_eq (m : CacheManager) (st : DockerState) (f : Faults)
    (hT : f.getContainerTransport = false)
    (hs : st.containers m.repo = some "exited")
    (hst : f.startFails = true) :
    check_cached_container m st f =
      (none, st, [.getContainer m.repo, .startContainer m.repo]) := by
  unfold check_cached_container
  rw [hT, hs, hst]
  simp

/-- An abnormal container is force-removed and `None` returned. -/
theorem check_abnormal_ok_eq (m : CacheManager) (st : DockerState) (f : Faults)
    (s : String) (hT : f.getContainerTransport = false)
    (hs : st.containers m.repo = some s)
    (h1 : s ≠ "running") (h2 : s ≠ "exited")
    (hrm : f.removeFails = false) :
    check_cached_container m st f =
      (none,
       { st with containers := fun n => if n = m.repo then none else st.containers n },
       [.getContainer m.repo, .removeContainer m.repo]) := by
  unfold check_cached_container
  rw [hT, hs]
  simp [h1, h2, hrm]

/-- An abnormal container whose removal raises: the exception is swallowed,
result `None`, the abnormal container left in place. -/
theorem check_abnormal_fail_eq (m : CacheManager) (st : DockerState) (f : Faults)
    (s : String) (hT : f.getContainerTransport = false)
    (hs : st.containers m.repo = some s)
    (h1 : s ≠ "running") (h2 : s ≠ "exited")
    (hrm : f.removeFails = true) :
    check_cached_container m st f =
      (none, st, [.getContainer m.repo, .removeContainer m.repo]) := by
  unfold check_cached_container
  rw [hT, hs]
  simp [h1, h2, hrm]

/-- A transport error on the image lookup is swallowed: result `False`. -/
theorem image_transport_eq (m : CacheManager) (st : DockerState) (f : Faults)
    (hT : f.getImageTransport = true) :
    check_cached_image m st f
      = (false, [.getImage ("featbench_" ++ m.repo_lower ++ ":" ++ m.repo_id)]) := by
  unfold check_cached_image
  rw [hT]
  rfl

/-- Without a transport error the image lookup reports presence of the key. -/
theorem image_lookup_eq (m : CacheManager) (st : DockerState) (f : Faults)
    (hT : f.getImageTransport = false) :
    check_cached_image m st f
      = ((st.images ("featbench_" ++ m.repo_lower ++ ":" ++ m.repo_id)).isSome,
         [.getImage ("featbench_" ++ m.repo_lower ++ ":" ++ m.repo_id)]) := by
  unfold check_cached_image
  rw [hT]
  rfl

/-- A successful commit: fresh image id, key (re-)pointed at it, containers
untouched, a single commit call. -/
theorem save_ok_eq (m : CacheManager) (st : DockerState) (f : Faults)
    (c : String) (hc : f.commitFails = none) :
    save_container_as_image m st f c =
      (.ok st.nextImageId,
       { st with
           images := fun k =>
             if k = "featbench_" ++ m.repo_lower ++ ":" ++ m.repo_id then some st.nextImageId
             else st.images k
           nextImageId := st.nextImageId + 1 },
       [.commitContainer ("featbench_" ++ m.repo_lower ++ ":" ++ m.repo_id)]) := by
  unfold save_container_as_image
  rw [hc]

/-- A failing commit: the original exception `e` is replaced by a `CacheError`
whose message is the fixed text followed by `str(e)`; the daemon state is
untouched and no second commit is attempted. -/
theorem save_fail_eq (m : CacheManager) (st : DockerState) (f : Faults)
    (c : String) (e : PyError) (hc : f.commitFails = some e) :
    save_container_as_image m st f c =
      (.error (.cacheError ("Failed to save container image: " ++ pyStr e)), st,
       [.commitContainer ("featbench_" ++ m.repo_lower ++ ":" ++ m.repo_id)]) := by
  unfold save_container_as_image
  rw [hc]

/-- A successful run from the cached image: container named `repo`, running. -/
theorem create_from_cached_ok_eq (m : CacheManager) (st : DockerState)
    (f : Faults) (hr : f.runFails = false)
    (hc : st.containers m.repo = none) :
    create_container_from_cached_image m st f =
      (.ok m.repo,
       { st with containers := fun n => if n = m.repo then some "running" else st.containers n },
       [.runContainer ("featbench_" ++ m.repo_lower ++ ":" ++ m.repo_id) m.repo]) := by
  unfold create_container_from_cached_image
  dsimp only [common_container_config]
  rw [hr, hc]
  simp

/-- A successful build-and-run: Build Trigger invoked once, container named
`repo`, running. -/
theorem create_new_ok_eq (m : CacheManager) (st : DockerState) (f : Faults)
    (img : String) (hb : f.buildFails = false) (hr : f.runFails = false)
    (hc : st.containers m.repo = none) :
    create_new_container m st f img =
      (.ok m.repo,
       { st with containers := fun n => if n = m.repo then some "running" else st.containers n },
       [.buildImage m.repo, .runContainer img m.repo]) := by
  unfold create_new_container
  dsimp only [common_container_config]
  rw [hb, hr, hc]
  simp

/-! The claims. -/

/-- C4: key derivation replaces path separators with underscores to form the
container key, lower-cases it to form the image namespace, and forms the image
key byte-for-byte as `featbench_` followed by the lower-cased normalized name,
a colon, and the task id; repository `octocat/demo` with task id `42` yields
container key `octocat_demo`, image namespace `octocat_demo` and image key
`featbench_octocat_demo:42`. -/
theorem C4_key_derivation :
    (∀ r t st f, (CacheManager.init r t).repo = pyReplaceSlash r ∧
       (CacheManager.init r t).repo_lower = pyLower (pyReplaceSlash r) ∧
       (check_cached_image (CacheManager.init r t) st f).2
         = [.getImage ("featbench_" ++ pyLower (pyReplaceSlash r) ++ ":" ++ t)]) ∧
    mEx.repo = "octocat_demo" ∧
    mEx.repo_lower = "octocat_demo" ∧
    (check_cached_image mEx stEmpty noFaults).2
      = [.getImage "featbench_octocat_demo:42"] := by
  refine ⟨fun r t st f => ⟨rfl, rfl, check_cached_image_trace _ _ _⟩, ?_, ?_, ?_⟩
  · decide
  · decide
  · decide

/-- C8 counterexample: the distinct repository names `a/b_c` and `a_b/c`
collapse to byte-for-byte identical managers, and construction is total — no
fatal configuration error exists, contrary to the claim. -/
theorem C8_counterexample :
    CacheManager.init "a/b_c" "1" = CacheManager.init "a_b/c" "1" ∧
    ("a/b_c" : String) ≠ "a_b/c" := by
  decide

/-- C8 (amended): normalization is not injective and collisions are silent:
repository names that collapse to the same container key (such as `a/b_c` and
`a_b/c`) yield managers with identical keys whose container lookups are
indistinguishable; no error is raised. -/
theorem C8_silent_collision :
    (CacheManager.init "a/b_c" "1").repo = (CacheManager.init "a_b/c" "1").repo ∧
    (CacheManager.init "a/b_c" "1").repo_lower
      = (CacheManager.init "a_b/c" "1").repo_lower ∧
    (∀ st f, check_cached_container (CacheManager.init "a/b_c" "1") st f
           = check_cached_container (CacheManager.init "a_b/c" "1") st f) := by
  have h : CacheManager.init "a/b_c" "1" = CacheManager.init "a_b/c" "1" := by decide
  exact ⟨by rw [h], by rw [h], fun st f => by rw [h]⟩

/-- C2 counterexample: with the container found in `exited` status and the
start call raising, `check_cached_container` issues no removal, leaves the
exited container in place and returns `None` — the container is not treated as
abnormal/force-removed as the claim states. -/
theorem C2_counterexample :
    (check_cached_container mEx stExited fStartFail).1 = none ∧
    ((check_cached_container mEx stExited fStartFail).2.2).countP isRemoveCall = 0 ∧
    ((check_cached_container mEx stExited fStartFail).2.1).containers "octocat_demo"
      = some "exited" := by
  decide

/-- C2 (amended): on a container found in `exited` status exactly one start is
issued; if the start succeeds the now-running handle is returned; if the start
fails the exception is caught, no removal is performed, and `None` is returned
so the protocol falls through to the image lookup with the exited container
still in place. -/
theorem C2_exited_start (m : CacheManager) (st : DockerState) (f : Faults)
    (hT : f.getContainerTransport = false)
    (hs : st.containers m.repo = some "exited") :
    ((check_cached_container m st f).2.2).countP isStartCall = 1 ∧
    (f.startFails = false →
      (check_cached_container m st f).1 = some m.repo ∧
      ((check_cached_container m st f).2.1).containers m.repo = some "running") ∧
    (f.startFails = true →
      (check_cached_container m st f).1 = none ∧
      ((check_cached_container m st f).2.2).countP isRemoveCall = 0 ∧
      ((check_cached_container m st f).2.1).containers m.repo = some "exited") := by
  refine ⟨?_, ?_, ?_⟩
  · rw [check_cached_container_exited_trace m st f hT hs]
    rfl
  · intro hst
    rw [check_exited_ok_eq m st f hT hs hst]
    simp
  · intro hst
    rw [check_exited_fail_eq m st f hT hs hst]
    exact ⟨rfl, rfl, hs⟩

/-- C2 witness: on the concrete exited fixture with a fault-free daemon the
amended theorem applies and the handle comes back running. -/
theorem C2_exited_start_witness :
    ((check_cached_container mEx stExited noFaults).2.2).countP isStartCall = 1 ∧
    (noFaults.startFails = false →
      (check_cached_container mEx stExited noFaults).1 = some mEx.repo ∧
      ((check_cached_container mEx stExited noFaults).2.1).containers mEx.repo
        = some "running") ∧
    (noFaults.startFails = true →
      (check_cached_container mEx stExited noFaults).1 = none ∧
      ((check_cached_container mEx stExited noFaults).2.2).countP isRemoveCall = 0 ∧
      ((check_cached_container mEx stExited noFaults).2.1).containers mEx.repo
        = some "exited") :=
  C2_exited_start mEx stExited noFaults (by decide) (by decide)

/-- C3 counterexample: with a running container and a cached image both
present but the daemon unreachable for the two lookups, the transport errors
are swallowed — the container lookup returns `None` and the image lookup
`False`, exactly like not-found, and the acquisition falls through to the
Build Trigger; no transport error reaches the caller of the lookups. -/
theorem C3_counterexample :
    stBoth.containers mEx.repo = some "running" ∧
    (stBoth.images "featbench_octocat_demo:42").isSome = true ∧
    fTransport.getContainerTransport = true ∧
    (check_cached_container mEx stBoth fTransport).1 = none ∧
    (check_cached_container mEx stBoth fTransport).2.1.containers "octocat_demo"
      = some "running" ∧
    (check_cached_image mEx stBoth fTransport).1 = false ∧
    ((acquireEnvironment mEx stBoth fTransport "img-built").2.2).countP isBuildCall
      = 1 := by
  decide

/-- C3 (amended): transport errors during the container and image lookups are
caught by the generic exception handlers inside `check_cached_container` and
`check_cached_image`, which return `None` and `False` exactly as for a
not-found result, leaving the daemon state untouched; the caller cannot
distinguish a transport failure from a cache miss, so it silently drives the
fallback. -/
theorem C3_transport_conflated (m : CacheManager) (st : DockerState)
    (f : Faults) (hT : f.getContainerTransport = true)
    (hI : f.getImageTransport = true) :
    check_cached_container m st f = (none, st, [.getContainer m.repo]) ∧
    (check_cached_image m st f).1 = false := by
  refine ⟨check_transport_eq m st f hT, ?_⟩
  rw [image_transport_eq m st f hI]

/-- C3 witness: the amended theorem applied to the concrete two-fault
fixture. -/
theorem C3_transport_conflated_witness :
    check_cached_container mEx stBoth fTransport
      = (none, stBoth, [.getContainer mEx.repo]) ∧
    (check_cached_image mEx stBoth fTransport).1 = false :=
  C3_transport_conflated mEx stBoth fTransport (by decide) (by decide)

/-- The trace of `save_container_as_image` is always a single commit call. -/
theorem save_trace (m : CacheManager) (st : DockerState) (f : Faults)
    (c : String) :
    (save_container_as_image m st f c).2.2
      = [.commitContainer ("featbench_" ++ m.repo_lower ++ ":" ++ m.repo_id)] := by
  unfold save_container_as_image
  dsimp only
  split <;> rfl

/-- C6 counterexample: with the container in the abnormal status `dead` and
the removal raising, `check_cached_container` swallows the exception and
returns the plain `None` of a cache miss — the abnormal container stays behind
and no TransportError (no error of any kind) is surfaced to the caller. -/
theorem C6_counterexample :
    ((check_cached_container mEx stAbnormal fRemoveFail).2.2).countP isRemoveCall
      = 1 ∧
    (check_cached_container mEx stAbnormal fRemoveFail).1 = none ∧
    ((check_cached_container mEx stAbnormal fRemoveFail).2.1).containers
      "octocat_demo" = some "dead" := by
  decide

/-- C6 (amended): a container found in a status other than `running` and
`exited` is met with exactly one unconditional force-remove and `None` is
returned so the protocol proceeds to the image lookup; on removal success the
container is gone, but a removal failure is also swallowed by the generic
handler — `None` is returned with the abnormal container left in place, and no
error is surfaced. -/
theorem C6_abnormal_removal (m : CacheManager) (st : DockerState) (f : Faults)
    (s : String) (hT : f.getContainerTransport = false)
    (hs : st.containers m.repo = some s)
    (h1 : s ≠ "running") (h2 : s ≠ "exited") :
    ((check_cached_container m st f).2.2).countP isRemoveCall = 1 ∧
    (check_cached_container m st f).1 = none ∧
    (f.removeFails = false →
      ((check_cached_container m st f).2.1).containers m.repo = none) ∧
    (f.removeFails = true →
      ((check_cached_container m st f).2.1).containers m.repo = some s) := by
  cases hrm : f.removeFails
  · rw [check_abnormal_ok_eq m st f s hT hs h1 h2 hrm]
    exact ⟨rfl, rfl, fun _ => by simp, fun h => by simp at h⟩
  · rw [check_abnormal_fail_eq m st f s hT hs h1 h2 hrm]
    exact ⟨rfl, rfl, fun h => by simp at h, fun _ => hs⟩

/-- C6 witness: the amended theorem applied to the `dead` container with a
fault-free daemon. -/
theorem C6_abnormal_removal_witness :
    ((check_cached_container mEx stAbnormal noFaults).2.2).countP isRemoveCall
      = 1 ∧
    (check_cached_container mEx stAbnormal noFaults).1 = none ∧
    (noFaults.removeFails = false →
      ((check_cached_container mEx stAbnormal noFaults).2.1).containers mEx.repo
        = none) ∧
    (noFaults.removeFails = true →
      ((check_cached_container mEx stAbnormal noFaults).2.1).containers mEx.repo
        = some "dead") :=
  C6_abnormal_removal mEx stAbnormal noFaults "dead" (by decide) (by decide)
    (by decide) (by decide)

/-- C7 counterexample: on a daemon already holding image id 7 under
`featbench_octocat_demo:42`, a checkpoint does not report an "already cached"
outcome — the commit proceeds, succeeds with the fresh id 99 and re-points the
key at it, replacing the cached image. -/
theorem C7_counterexample :
    stPre.images "featbench_octocat_demo:42" = some 7 ∧
    (save_container_as_image mEx stPre noFaults "octocat_demo").1 = .ok 99 ∧
    ((save_container_as_image mEx stPre noFaults "octocat_demo").2.1).images
      "featbench_octocat_demo:42" = some 99 := by
  decide

/-- C7 (amended): a checkpoint never checks for a pre-existing image: when one
exists at the target key the commit proceeds and the key is re-pointed at the
newly committed image; exactly one commit call is issued whatever the faults
(no automatic retry), and the source container entry is left untouched. -/
theorem C7_checkpoint_overwrites (m : CacheManager) (st : DockerState)
    (f : Faults) (c : String) (old : Nat)
    (_hpre : st.images ("featbench_" ++ m.repo_lower ++ ":" ++ m.repo_id)
      = some old)
    (hc : f.commitFails = none) :
    (save_container_as_image m st f c).1 = .ok st.nextImageId ∧
    ((save_container_as_image m st f c).2.1).images
      ("featbench_" ++ m.repo_lower ++ ":" ++ m.repo_id) = some st.nextImageId ∧
    (∀ n, ((save_container_as_image m st f c).2.1).containers n
      = st.containers n) ∧
    (∀ f', ((save_container_as_image m st f' c).2.2).countP isCommitCall = 1) := by
  rw [save_ok_eq m st f c hc]
  refine ⟨rfl, by simp, fun n => rfl, fun f' => ?_⟩
  rw [save_trace m st f' c]
  rfl

/-- C7 witness: the amended theorem applied to the fixture with image id 7
pre-existing at the key and the daemon's next id 99. -/
theorem C7_checkpoint_overwrites_witness :
    (save_container_as_image mEx stPre noFaults "octocat_demo").1
      = .ok stPre.nextImageId ∧
    ((save_container_as_image mEx stPre noFaults "octocat_demo").2.1).images
      ("featbench_" ++ mEx.repo_lower ++ ":" ++ mEx.repo_id)
      = some stPre.nextImageId ∧
    (∀ n, ((save_container_as_image mEx stPre noFaults "octocat_demo").2.1).containers n
      = stPre.containers n) ∧
    (∀ f', ((save_container_as_image mEx stPre f' "octocat_demo").2.2).countP
      isCommitCall = 1) :=
  C7_checkpoint_overwrites mEx stPre noFaults "octocat_demo" 7 (by decide)
    (by decide)

/-- C9 counterexample: a commit failing with `APIError("Read timed out")` is
re-raised as `CacheError("Failed to save container image: Read timed out")` —
a substituted exception type, not the original error — and the message carries
neither the repository identity (`octocat`, `demo`) nor the task id (`42`). -/
theorem C9_counterexample :
    (save_container_as_image mEx stRun fCommitFail "octocat_demo").1
      = .error (.cacheError "Failed to save container image: Read timed out") ∧
    (save_container_as_image mEx stRun fCommitFail "octocat_demo").1
      ≠ .error (.apiError "Read timed out") ∧
    strHasSub "Failed to save container image: Read timed out" "octocat" = false ∧
    strHasSub "Failed to save container image: Read timed out" "demo" = false ∧
    strHasSub "Failed to save container image: Read timed out" "42" = false := by
  decide

/-- C9 (amended): every commit failure is translated into the project's
`CacheError`, whose message is the fixed operation text followed by `str(e)`
of the original exception: the original error type does not propagate, and the
attached context is only the operation name plus the daemon's message — the
repository identity and task id are not included; the image cache is left
unchanged. -/
theorem C9_error_translated (m : CacheManager) (st : DockerState) (f : Faults)
    (c : String) (e : PyError) (hc : f.commitFails = some e) :
    (save_container_as_image m st f c).1
      = .error (.cacheError ("Failed to save container image: " ++ pyStr e)) ∧
    (∀ k, ((save_container_as_image m st f c).2.1).images k = st.images k) := by
  rw [save_fail_eq m st f c e hc]
  exact ⟨rfl, fun k => rfl⟩

/-- C9 witness: the amended theorem applied to the concrete timeout fault. -/
theorem C9_error_translated_witness :
    (save_container_as_image mEx stRun fCommitFail "octocat_demo").1
      = .error (.cacheError ("Failed to save container image: "
          ++ pyStr (.apiError "Read timed out"))) ∧
    (∀ k, ((save_container_as_image mEx stRun fCommitFail "octocat_demo").2.1).images k
      = stRun.images k) :=
  C9_error_translated mEx stRun fCommitFail "octocat_demo"
    (.apiError "Read timed out") (by decide)

/-- When no container is present but the image key resolves, the acquisition
goes through the image branch: the handle is `repo` and the Build Trigger is
not invoked. -/
theorem acquire_via_image (m : CacheManager) (st : DockerState) (f : Faults)
    (img : String)
    (h1 : f.getContainerTransport = false)
    (hnc : st.containers m.repo = none)
    (h2 : f.getImageTransport = false)
    (himg : (st.images ("featbench_" ++ m.repo_lower ++ ":" ++ m.repo_id)).isSome
      = true)
    (h3 : f.runFails = false) :
    (acquireEnvironment m st f img).1 = .ok m.repo ∧
    ((acquireEnvironment m st f img).2.2).countP isBuildCall = 0 := by
  unfold acquireEnvironment
  rw [check_notfound_eq m st f h1 hnc]
  dsimp only
  rw [image_lookup_eq m st f h2, himg]
  dsimp only
  rw [create_from_cached_ok_eq m st f h3 hnc]
  exact ⟨rfl, rfl⟩

/-- C1: every handle returned by any branch of the acquire protocol (reuse of
a running container, restart of an exited one, run from a cached image, run
from a freshly built image) is `running` in the daemon state the protocol
leaves behind; and when the container was found in `exited` status, exactly
one start call was issued. -/
theorem C1_acquire_returns_running (m : CacheManager) (st : DockerState)
    (f : Faults) (img h : String)
    (hok : (acquireEnvironment m st f img).1 = .ok h) :
    ((acquireEnvironment m st f img).2.1).containers h = some "running" ∧
    (f.getContainerTransport = false → st.containers m.repo = some "exited" →
      ((acquireEnvironment m st f img).2.2).countP isStartCall = 1) := by
  rcases h1 : check_cached_container m st f with ⟨c1, st1, t1⟩
  unfold acquireEnvironment at hok ⊢
  rw [h1] at hok ⊢
  cases c1 with
  | some r1 =>
    dsimp only at hok ⊢
    obtain ⟨hr, hrun⟩ := check_cached_container_some m st f r1 st1 t1 h1
    injection hok with hh
    subst hh
    subst hr
    refine ⟨hrun, fun hT hs => ?_⟩
    have htr := check_cached_container_exited_trace m st f hT hs
    rw [h1] at htr
    dsimp only at htr
    rw [htr]
    rfl
  | none =>
    dsimp only at hok ⊢
    rcases h2 : check_cached_image m st1 f with ⟨b, t2⟩
    rw [h2] at hok
    cases b with
    | true =>
      dsimp only at hok ⊢
      rcases h3 : create_container_from_cached_image m st1 f with ⟨r3, st3, t3⟩
      rw [h3] at hok
      dsimp only at hok ⊢
      have h3' : create_container_from_cached_image m st1 f = (.ok h, st3, t3) := by
        rw [h3, hok]
      obtain ⟨hr, hrun⟩ := create_from_cached_ok m st1 f h st3 t3 h3'
      refine ⟨by rw [hr]; exact hrun, fun hT hs => ?_⟩
      have e1 := check_cached_container_exited_trace m st f hT hs
      rw [h1] at e1
      dsimp only at e1
      have e2 := check_cached_image_trace m st1 f
      rw [h2] at e2
      dsimp only at e2
      have e3 := create_from_cached_trace m st1 f
      rw [h3] at e3
      dsimp only at e3
      rw [e1, e2, e3]
      rfl
    | false =>
      dsimp only at hok ⊢
      rcases h3 : create_new_container m st1 f img with ⟨r3, st3, t3⟩
      rw [h3] at hok
      dsimp only at hok ⊢
      have h3' : create_new_container m st1 f img = (.ok h, st3, t3) := by
        rw [h3, hok]
      obtain ⟨hr, hrun⟩ := create_new_ok m st1 f img h st3 t3 h3'
      refine ⟨by rw [hr]; exact hrun, fun hT hs => ?_⟩
      have e1 := check_cached_container_exited_trace m st f hT hs
      rw [h1] at e1
      dsimp only at e1
      have e2 := check_cached_image_trace m st1 f
      rw [h2] at e2
      dsimp only at e2
      have e3 := create_new_no_start m st1 f img
      rw [h3] at e3
      dsimp only at e3
      rw [e1, e2]
      simp [List.countP_append, e3, isStartCall, List.countP_cons]

/-- C1 witness: acquiring on the exited fixture with a fault-free daemon
returns the restarted running container after exactly one start call. -/
theorem C1_acquire_returns_running_witness :
    ((acquireEnvironment mEx stExited noFaults "img-built").2.1).containers
      "octocat_demo" = some "running" ∧
    (noFaults.getContainerTransport = false →
      stExited.containers mEx.repo = some "exited" →
      ((acquireEnvironment mEx stExited noFaults "img-built").2.2).countP
        isStartCall = 1) :=
  C1_acquire_returns_running mEx stExited noFaults "img-built" "octocat_demo"
    (by decide)

/-- C5: a successful checkpoint stores the image under exactly the key that
`check_cached_image` queries, so the lookup finds it; and after removing the
live container, a reacquisition resolves through the image-cache branch — the
handle is `repo` again and the Build Trigger is never invoked. -/
theorem C5_checkpoint_roundtrip (m : CacheManager) (st : DockerState)
    (f f2 : Faults) (c img : String) (id2 : Nat) (st2 : DockerState)
    (tr : List DockerCall)
    (hc : f.commitFails = none)
    (hsave : save_container_as_image m st f c = (.ok id2, st2, tr))
    (h1 : f2.getContainerTransport = false)
    (h2 : f2.getImageTransport = false)
    (h3 : f2.runFails = false) :
    (check_cached_image m st2 f2).1 = true ∧
    (acquireEnvironment m
       { st2 with containers := fun n => if n = m.repo then none else st2.containers n }
       f2 img).1 = .ok m.repo ∧
    ((acquireEnvironment m
       { st2 with containers := fun n => if n = m.repo then none else st2.containers n }
       f2 img).2.2).countP isBuildCall = 0 := by
  have heq := (save_ok_eq m st f c hc).symm.trans hsave
  simp only [Prod.mk.injEq] at heq
  obtain ⟨-, hst2, -⟩ := heq
  subst hst2
  have hfind : ((({ st with
      images := fun k =>
        if k = "featbench_" ++ m.repo_lower ++ ":" ++ m.repo_id then some st.nextImageId
        else st.images k
      nextImageId := st.nextImageId + 1 } : DockerState)).images
        ("featbench_" ++ m.repo_lower ++ ":" ++ m.repo_id)).isSome = true := by
    simp
  refine ⟨?_, ?_⟩
  · rw [image_lookup_eq m _ f2 h2]
    exact hfind
  · exact acquire_via_image m _ f2 img h1 (by simp) h2 hfind h3

/-- C5 witness: checkpointing the running fixture then reacquiring after
removing the container resolves via the image branch with no build call. -/
theorem C5_checkpoint_roundtrip_witness :
    (check_cached_image mEx stAfterSave noFaults).1 = true ∧
    (acquireEnvironment mEx
       { stAfterSave with
           containers := fun n => if n = mEx.repo then none else stAfterSave.containers n }
       noFaults "img-built").1 = .ok mEx.repo ∧
    ((acquireEnvironment mEx
       { stAfterSave with
           containers := fun n => if n = mEx.repo then none else stAfterSave.containers n }
       noFaults "img-built").2.2).countP isBuildCall = 0 :=
  C5_checkpoint_roundtrip mEx stRun noFaults noFaults "octocat_demo" "img-built"
    stRun.nextImageId stAfterSave
    [.commitContainer ("featbench_" ++ mEx.repo_lower ++ ":" ++ mEx.repo_id)]
    (by decide) (by rfl) (by decide) (by decide) (by decide)

/-- C10: all operations agree on the derived keys: the name that
`check_cached_container` looks up is exactly the name
`common_container_config` assigns to the containers created by both run paths
(`create_container_from_cached_image` and `create_new_container`), and
`check_cached_image`, `create_container_from_cached_image` and
`save_container_as_image` all address one and the same image key. -/
theorem C10_keys_agree (m : CacheManager) (st : DockerState) (f : Faults)
    (c : String) :
    ((check_cached_container m st f).2.2).head?
      = some (.getContainer (common_container_config m).name) ∧
    (∀ k, (save_container_as_image m st f c).2.2 = [.commitContainer k] →
      (check_cached_image m st f).2 = [.getImage k]) ∧
    (∀ k n, (create_container_from_cached_image m st f).2.2 = [.runContainer k n] →
      (check_cached_image m st f).2 = [.getImage k]
        ∧ n = (common_container_config m).name) ∧
    (∀ img b n, (create_new_container m st f img).2.2
        = [.buildImage b, .runContainer img n] →
      n = (common_container_config m).name) := by
  refine ⟨?_, ?_, ?_, ?_⟩
  · unfold check_cached_container
    split
    · rfl
    · split
      · rfl
      · split
        · rfl
        · split
          · split <;> rfl
          · split <;> rfl
  · intro k hk
    rw [save_trace m st f c] at hk
    have hkey : ("featbench_" ++ m.repo_lower ++ ":" ++ m.repo_id) = k := by
      simpa using hk
    rw [check_cached_image_trace m st f, hkey]
  · intro k n hk
    rw [create_from_cached_trace m st f] at hk
    have hk' : DockerCall.runContainer ("featbench_" ++ m.repo_lower ++ ":" ++ m.repo_id) m.repo
        = DockerCall.runContainer k n := by
      simpa using hk
    injection hk' with hk1 hk2
    exact ⟨by rw [check_cached_image_trace m st f, hk1], hk2.symm⟩
  · intro img b n hk
    unfold create_new_container at hk
    dsimp only at hk
    split at hk
    · exact absurd hk (by simp)
    · split at hk
      · have hk' : m.repo = b ∧ (common_container_config m).name = n := by
          simpa using hk
        exact hk'.2.symm
      · split at hk
        · have hk' : m.repo = b ∧ (common_container_config m).name = n := by
            simpa using hk
          exact hk'.2.symm
        · have hk' : m.repo = b ∧ (common_container_config m).name = n := by
            simpa using hk
          exact hk'.2.symm

/-- C10 witness: on the worked scenario the shared image key is
`featbench_octocat_demo:42`, the shared container name heads the lookup trace,
and the fresh-build run path names its container with that same shared name. -/
theorem C10_keys_agree_witness :
    (check_cached_image mEx stEmpty noFaults).2
      = [.getImage "featbench_octocat_demo:42"] ∧
    ((check_cached_container mEx stEmpty noFaults).2.2).head?
      = some (.getContainer (common_container_config mEx).name) ∧
    ("octocat_demo" : String) = (common_container_config mEx).name := by
  have h := C10_keys_agree mEx stEmpty noFaults "octocat_demo"
  exact ⟨h.2.1 "featbench_octocat_demo:42" (by decide), h.1,
    h.2.2.2 "img-built" "octocat_demo" "octocat_demo" (by decide)⟩

end FeatBench
